/-
Verification of the bike-shop storefront core (src/store.js).

Modelling conventions for the shallow embedding:
* JavaScript numbers are modelled as exact rationals (ℚ); the source performs
  no rounding internally (rounding happens only in the display helper
  formatPrice, outside the core), so all the pricing identities of the spec
  are stated and proved over exact arithmetic.
* localStorage interactions are embedded by explicit state passing: each
  operation takes the decoded persisted state as an argument and returns the
  new state, instead of reading/writing the browser store.
* JSON.parse is treated as an oracle: functions that parse a persisted record
  take the outcome of the parse as input, of type Except Unit Json
  (Except.error models a thrown SyntaxError; an absent record parses to
  Json.null, because getItem returns null and JSON.parse coerces it to the
  string "null").
* A JavaScript object literal preserves the insertion order of its keys, and
  JSON.stringify serialises a string-to-string object injectively in that key
  order; an options object is therefore embedded as an ordered association
  list List (String × String), and the source's comparison
  JSON.stringify(a) === JSON.stringify(b) is embedded as equality of the two
  association lists.
* Array.prototype.splice(start, 1) is embedded with the ECMAScript index
  arithmetic: a negative start counts from the end of the array and is
  clamped to 0, a start beyond the length removes nothing.
-/
import Mathlib

namespace BikeShop

/-- JSON values, the decoded form of a persisted record. -/
inductive Json where
  | null : Json
  | bool : Bool → Json
  | num : ℚ → Json
  | str : String → Json
  | arr : List Json → Json
  | obj : List (String × Json) → Json

/-- A catalog product, from the products constant of src/store.js. -/
structure Product where
  id : String
  name : String
  category : String
  price : ℚ
  weight : ℚ
  options : List (String × List String)
  description : String
  image : String
  sale : Bool
  popular : Bool
  deriving DecidableEq, Repr

/-- The product catalog, embedded verbatim from src/store.js. -/
def products : List Product :=
  [ { id := "m1", name := "Горный велосипед TrailX", category := "mountain",
      price := 60000, weight := 10,
      options := [("colour", ["черный", "красный"]), ("size", ["S", "M", "L"])],
      description := "Надежный горный велосипед с амортизацией и прочной рамой.",
      image := "images/mountain-bike.png", sale := false, popular := true },
    { id := "m2", name := "Горный велосипед Peak 200", category := "mountain",
      price := 45000, weight := 12,
      options := [("colour", ["синий", "серый"]), ("size", ["M", "L"])],
      description := "Универсальный велосипед для бездорожья и города.",
      image := "images/mountain-bike.png", sale := true, popular := false },
    { id := "c1", name := "Городской велосипед UrbanGo", category := "city",
      price := 30000, weight := 8,
      options := [("colour", ["белый", "зеленый"]), ("size", ["M", "L"])],
      description := "Легкий и маневренный велосипед для городских поездок.",
      image := "images/city-bike.png", sale := false, popular := true },
    { id := "r1", name := "Гоночный велосипед Speedster", category := "racing",
      price := 80000, weight := 7,
      options := [("colour", ["черный", "белый"]), ("size", ["S", "M", "L"])],
      description := "Максимальная скорость и минимальный вес для настоящих гонщиков.",
      image := "images/racing-bike.png", sale := false, popular := false },
    { id := "h1", name := "Гибридный велосипед Comet", category := "hybrid",
      price := 35000, weight := 9,
      options := [("colour", ["серебристый"]), ("size", ["M", "L"])],
      description := "Совмещает преимущества дорожных и горных велосипедов.",
      image := "images/hybrid-bike.png", sale := false, popular := false },
    { id := "acc1", name := "Шлем для велосипеда", category := "accessories",
      price := 5000, weight := 0.5,
      options := [("colour", ["черный", "синий"]), ("size", ["M", "L"])],
      description := "Легкий и прочный шлем для вашей безопасности.",
      image := "images/helmet.png", sale := false, popular := false },
    { id := "acc2", name := "Велозамок", category := "accessories",
      price := 1500, weight := 0.3,
      options := [("colour", ["черный"]), ("size", ["универсальный"])],
      description := "Надежный замок для защиты вашего велосипеда.",
      image := "images/lock.png", sale := false, popular := false },
    { id := "foot1", name := "Велотуфли", category := "footwear",
      price := 8000, weight := 0.8,
      options := [("size", ["38", "39", "40", "41", "42"])],
      description := "Удобные туфли для профессиональной езды.",
      image := "images/shoes.png", sale := true, popular := false },
    { id := "cloth1", name := "Джерси", category := "clothing",
      price := 2500, weight := 0.2,
      options := [("size", ["S", "M", "L"]), ("colour", ["красный", "синий"])],
      description := "Дышащая велофутболка для комфорта во время поездок.",
      image := "images/jersey.png", sale := false, popular := false } ]

/-- Shipping and discount rule constants from src/store.js. -/
def SHIPPING_FREE_THRESHOLD : ℚ := 7000

/-- Weight in kg up to 3 kg costs 300 (src/store.js). -/
def SHIPPING_SMALL_LIMIT : ℚ := 3

/-- Flat medium shipping cost (src/store.js). -/
def SHIPPING_MEDIUM_COST : ℚ := 300

/-- Flat large shipping cost (src/store.js). -/
def SHIPPING_LARGE_COST : ℚ := 500

/-- Loyalty discount for a logged-in user, 2% (src/store.js). -/
def USER_DISCOUNT : ℚ := 0.02

/-- Sale discount for clearance products, 5% (src/store.js). -/
def SALE_DISCOUNT : ℚ := 0.05

/-- Cash-on-delivery surcharge, 5% (src/store.js). -/
def COD_SURCHARGE : ℚ := 0.05

/-- One cart line item: the options object is embedded as an ordered
association list (JavaScript objects preserve key insertion order). -/
structure CartLineItem where
  productId : String
  quantity : ℚ
  options : List (String × String)
  deriving DecidableEq, Repr

/-- Finds a product by id: products.find with strict id equality. -/
def findProduct (id : String) : Option Product :=
  products.find? (fun p => p.id == id)

/-- The totals record returned by calculateCartTotals. -/
structure Totals where
  subtotal : ℚ
  shippingCost : ℚ
  codSurcharge : ℚ
  total : ℚ
  deriving DecidableEq, Repr

/-- One step of the forEach accumulation of calculateCartTotals: resolves the
line item's product, skips it silently when absent, and otherwise adds the
(sale-discounted) price times quantity to the subtotal and the weight times
quantity to the total weight. -/
def accumLine (acc : ℚ × ℚ) (item : CartLineItem) : ℚ × ℚ :=
  match findProduct item.productId with
  | some product =>
      (acc.1 + (if product.sale then product.price * (1 - SALE_DISCOUNT) else product.price)
          * item.quantity,
       acc.2 + product.weight * item.quantity)
  | none => acc

/-- The forEach loop of calculateCartTotals: accumulates the pair
(subtotal before the loyalty discount, total weight) over the cart. -/
def cartAccum (cart : List CartLineItem) : ℚ × ℚ :=
  cart.foldl accumLine (0, 0)

/-- calculateCartTotals from src/store.js. The source reads the cart via
getCart and the user via getCurrentUser; the embedding passes the decoded
cart and the presence of a user explicitly. The shipping and payment methods
are Option String, none standing for an absent selection. -/
def calculateCartTotals (cart : List CartLineItem) (userPresent : Bool)
    (selectedShipping selectedPayment : Option String) : Totals :=
  let acc := cartAccum cart
  let subtotal := if userPresent then acc.1 * (1 - USER_DISCOUNT) else acc.1
  let totalWeight := acc.2
  let shippingCost :=
    if selectedShipping = some "delivery" then
      if subtotal > SHIPPING_FREE_THRESHOLD then 0 else SHIPPING_MEDIUM_COST
    else if selectedShipping = some "mail" then
      if totalWeight ≤ SHIPPING_SMALL_LIMIT then SHIPPING_MEDIUM_COST
      else SHIPPING_LARGE_COST
    else 0
  let codSurcharge :=
    if selectedShipping = some "mail" ∧ selectedPayment = some "cod" then
      subtotal * COD_SURCHARGE
    else 0
  { subtotal := subtotal, shippingCost := shippingCost, codSurcharge := codSurcharge,
    total := subtotal + shippingCost + codSurcharge }

/-- getCart from src/store.js: JSON.parse of the persisted cart record inside
try/catch; a parse failure (Except.error) or a parse result that is not an
array yields the empty list, an array is returned as is. The argument is the
outcome of JSON.parse on the stored string (an absent record parses to
Json.null). -/
def getCart (parsed : Except Unit Json) : List Json :=
  match parsed with
  | Except.error _ => []
  | Except.ok (Json.arr items) => items
  | Except.ok _ => []

/-- JavaScript falsiness of a JSON value, used by the source's coercions
(the expression x || null yields null exactly when x is falsy). -/
def jsFalsy : Json → Bool
  | Json.null => true
  | Json.bool b => !b
  | Json.num q => q == 0
  | Json.str s => s == ""
  | _ => false

/-- getCurrentUser from src/store.js: JSON.parse of the persisted user record
inside try/catch, with a trailing || null. A parse failure or a falsy parse
result yields none. -/
def getCurrentUser (parsed : Except Unit Json) : Option Json :=
  match parsed with
  | Except.error _ => none
  | Except.ok j => if jsFalsy j then none else some j

/-- subscribeEmail from src/store.js. The argument is the outcome of
JSON.parse on (stored record or the literal "[]" when the record is absent
or empty), decoded as a list of strings; there is no try/catch in the
source, so a parse failure propagates to the caller, embedded as
Except.error. On a well-formed list the email is appended exactly when it is
non-empty (truthy) and not already included under exact string equality. -/
def subscribeEmail (stored : Except Unit (List String)) (email : String) :
    Except Unit (List String) :=
  match stored with
  | Except.error e => Except.error e
  | Except.ok list =>
      Except.ok (if email ≠ "" ∧ email ∉ list then list ++ [email] else list)

/-- addToCart from src/store.js: finds the first line item with the same
productId and the same serialised options (equality of the ordered
association lists, see the header comment), increments its quantity, and
otherwise pushes a new line item at the end. -/
def addToCart : List CartLineItem → String → ℚ → List (String × String) →
    List CartLineItem
  | [], productId, quantity, options => [⟨productId, quantity, options⟩]
  | item :: rest, productId, quantity, options =>
      if item.productId = productId ∧ item.options = options then
        { item with quantity := item.quantity + quantity } :: rest
      else
        item :: addToCart rest productId quantity options

/-- Assignment cart[index].quantity = quantity, as a list update. -/
def setQuantityAt : List CartLineItem → Nat → ℚ → List CartLineItem
  | [], _, _ => []
  | item :: rest, 0, q => { item with quantity := q } :: rest
  | item :: rest, n + 1, q => item :: setQuantityAt rest n q

/-- updateCartItem from src/store.js: inside the range check it assigns the
new quantity and then splices the item out when the stored quantity is ≤ 0;
outside the range check nothing happens. -/
def updateCartItem (cart : List CartLineItem) (index : Int) (quantity : ℚ) :
    List CartLineItem :=
  if 0 ≤ index ∧ index < (cart.length : Int) then
    let cart1 := setQuantityAt cart index.toNat quantity
    if quantity ≤ 0 then cart1.eraseIdx index.toNat else cart1
  else cart

/-- The actual start position of Array.prototype.splice(start, 1) per the
ECMAScript specification: a negative start counts from the end and is
clamped to 0, a start beyond the length is clamped to the length. -/
def spliceStart (len : Nat) (index : Int) : Nat :=
  if index < 0 then ((len : Int) + index).toNat else min index.toNat len

/-- removeCartItem from src/store.js: cart.splice(index, 1) with no range
check, so the ECMAScript splice index arithmetic applies in full. -/
def removeCartItem (cart : List CartLineItem) (index : Int) : List CartLineItem :=
  let s := spliceStart cart.length index
  cart.take s ++ cart.drop (s + 1)

/-- Follows the spec's words: the contribution of one line item to the
subtotal, price * (1 - 0.05) per unit for a sale product, price per unit
otherwise, 0 for a stale product reference. -/
def specLineSubtotal (item : CartLineItem) : ℚ :=
  match findProduct item.productId with
  | some p => (if p.sale then p.price * (1 - SALE_DISCOUNT) else p.price) * item.quantity
  | none => 0

/-- Follows the spec's words: the contribution of one line item to the cart
weight. -/
def specLineWeight (item : CartLineItem) : ℚ :=
  match findProduct item.productId with
  | some p => p.weight * item.quantity
  | none => 0

/-- Follows the spec's words: the aggregated pre-loyalty subtotal of a cart. -/
def specCartSubtotal (cart : List CartLineItem) : ℚ :=
  (cart.map specLineSubtotal).sum

/-- Follows the spec's words: the total weight of a cart. -/
def specCartWeight (cart : List CartLineItem) : ℚ :=
  (cart.map specLineWeight).sum

/-- Follows the claim's words: two options objects are structurally equal as
mappings, regardless of key order, when every key occurring in either has
the same lookup result in both. -/
def sameMapping (a b : List (String × String)) : Bool :=
  (a.map Prod.fst).all (fun k => a.lookup k == b.lookup k) &&
  (b.map Prod.fst).all (fun k => a.lookup k == b.lookup k)

/-- One accumulation step adds the line's subtotal and weight contributions. -/
theorem accumLine_eq (a b : ℚ) (item : CartLineItem) :
    accumLine (a, b) item = (a + specLineSubtotal item, b + specLineWeight item) := by
  unfold accumLine specLineSubtotal specLineWeight
  cases findProduct item.productId <;> simp

/-- The forEach accumulation of calculateCartTotals computes the spec-side
subtotal and cart weight. -/
theorem foldl_accumLine (cart : List CartLineItem) : ∀ a b : ℚ,
    cart.foldl accumLine (a, b) = (a + specCartSubtotal cart, b + specCartWeight cart) := by
  induction cart with
  | nil => intro a b; simp [specCartSubtotal, specCartWeight]
  | cons item rest ih =>
      intro a b
      simp only [List.foldl_cons, accumLine_eq, ih, specCartSubtotal, specCartWeight,
        List.map_cons, List.sum_cons]
      exact Prod.ext (by ring) (by ring)

/-- The forEach accumulation started at zero computes exactly the spec-side
subtotal and weight pair. -/
theorem cartAccum_eq (cart : List CartLineItem) :
    cartAccum cart = (specCartSubtotal cart, specCartWeight cart) := by
  have h := foldl_accumLine cart 0 0
  simpa [cartAccum] using h

/-- The subtotal returned by calculateCartTotals: the spec-side subtotal,
multiplied by the loyalty factor when a user is present. -/
theorem calc_subtotal (cart : List CartLineItem) (u : Bool) (s p : Option String) :
    (calculateCartTotals cart u s p).subtotal =
      if u then specCartSubtotal cart * (1 - USER_DISCOUNT) else specCartSubtotal cart := by
  simp only [calculateCartTotals, cartAccum_eq]

/-- The shipping cost returned by calculateCartTotals, in terms of the
returned subtotal and the spec-side cart weight. -/
theorem calc_shipping (cart : List CartLineItem) (u : Bool) (s p : Option String) :
    (calculateCartTotals cart u s p).shippingCost =
      if s = some "delivery" then
        if (calculateCartTotals cart u s p).subtotal > SHIPPING_FREE_THRESHOLD then 0
        else SHIPPING_MEDIUM_COST
      else if s = some "mail" then
        if specCartWeight cart ≤ SHIPPING_SMALL_LIMIT then SHIPPING_MEDIUM_COST
        else SHIPPING_LARGE_COST
      else 0 := by
  simp only [calculateCartTotals, cartAccum_eq]

/-- The cash-on-delivery surcharge returned by calculateCartTotals, in terms
of the returned subtotal. -/
theorem calc_cod (cart : List CartLineItem) (u : Bool) (s p : Option String) :
    (calculateCartTotals cart u s p).codSurcharge =
      if s = some "mail" ∧ p = some "cod" then
        (calculateCartTotals cart u s p).subtotal * COD_SURCHARGE
      else 0 := by
  simp only [calculateCartTotals, cartAccum_eq]

/-- The grand total is the sum of the three other components. -/
theorem calc_total (cart : List CartLineItem) (u : Bool) (s p : Option String) :
    (calculateCartTotals cart u s p).total =
      (calculateCartTotals cart u s p).subtotal +
        (calculateCartTotals cart u s p).shippingCost +
        (calculateCartTotals cart u s p).codSurcharge := by
  simp [calculateCartTotals]

/-- removeCartItem erases the element at the ECMAScript splice start
position. -/
theorem removeCartItem_eq_eraseIdx (cart : List CartLineItem) (index : Int) :
    removeCartItem cart index = cart.eraseIdx (spliceStart cart.length index) := by
  simp [removeCartItem, List.eraseIdx_eq_take_drop_succ]

/-- The quantity assignment is List.set of the updated line item. -/
theorem setQuantityAt_eq_set (l : List CartLineItem) (i : Nat) (q : ℚ) (h : i < l.length) :
    setQuantityAt l i q = l.set i { l.get ⟨i, h⟩ with quantity := q } := by
  induction l generalizing i with
  | nil => simp at h
  | cons a t ih =>
      cases i with
      | zero => simp [setQuantityAt]
      | succ n =>
          have hn : n < t.length := by simpa using h
          simp [setQuantityAt, ih n hn]

/-- Erasing the item at the position that was just assigned erases the
original item. -/
theorem eraseIdx_setQuantityAt (l : List CartLineItem) (i : Nat) (q : ℚ) :
    (setQuantityAt l i q).eraseIdx i = l.eraseIdx i := by
  induction l generalizing i with
  | nil => simp [setQuantityAt]
  | cons a t ih => cases i <;> simp [setQuantityAt, ih]

/-- When no line item matches, addToCart appends a fresh line item. -/
theorem addToCart_of_no_match (cart : List CartLineItem) (pid : String) (q : ℚ)
    (opts : List (String × String))
    (h : ∀ it ∈ cart, ¬(it.productId = pid ∧ it.options = opts)) :
    addToCart cart pid q opts = cart ++ [⟨pid, q, opts⟩] := by
  induction cart with
  | nil => rfl
  | cons a t ih =>
      have ha := h a (List.mem_cons_self a t)
      rw [addToCart, if_neg ha, ih (fun it hit => h it (List.mem_cons_of_mem a hit))]
      rfl

/-- addToCart increments the quantity of the first matching line item and
leaves everything else unchanged. -/
theorem addToCart_first_match (pre : List CartLineItem) (item : CartLineItem)
    (post : List CartLineItem) (pid : String) (q : ℚ) (opts : List (String × String))
    (hpre : ∀ it ∈ pre, ¬(it.productId = pid ∧ it.options = opts))
    (hid : item.productId = pid) (hopts : item.options = opts) :
    addToCart (pre ++ item :: post) pid q opts =
      pre ++ { item with quantity := item.quantity + q } :: post := by
  induction pre with
  | nil => simp [addToCart, if_pos (And.intro hid hopts)]
  | cons a t ih =>
      have ha := hpre a (List.mem_cons_self a t)
      simp only [List.cons_append, addToCart, if_neg ha, List.append_eq]
      rw [ih (fun it hit => hpre it (List.mem_cons_of_mem a hit))]

/-- Every catalog product has a non-negative price and weight. -/
theorem products_nonneg : ∀ p ∈ products, 0 ≤ p.price ∧ 0 ≤ p.weight := by
  intro p hp
  simp only [products, List.mem_cons, List.not_mem_nil, or_false] at hp
  rcases hp with h | h | h | h | h | h | h | h | h <;> subst h <;>
    refine And.intro (by norm_num) (by norm_num)

/-- A product found by findProduct belongs to the catalog. -/
theorem findProduct_mem {id : String} {p : Product} (h : findProduct id = some p) :
    p ∈ products :=
  List.mem_of_find?_eq_some h

/-- A line item with a non-negative quantity contributes a non-negative
amount to the subtotal. -/
theorem specLineSubtotal_nonneg (item : CartLineItem) (h : 0 ≤ item.quantity) :
    0 ≤ specLineSubtotal item := by
  unfold specLineSubtotal
  cases hfp : findProduct item.productId with
  | none => exact le_refl 0
  | some p =>
      have hp := products_nonneg p (findProduct_mem hfp)
      refine mul_nonneg ?_ h
      split
      · exact mul_nonneg hp.1 (by norm_num [SALE_DISCOUNT])
      · exact hp.1

/-- A cart whose quantities are non-negative has a non-negative spec-side
subtotal. -/
theorem specCartSubtotal_nonneg (cart : List CartLineItem)
    (h : ∀ it ∈ cart, 0 ≤ it.quantity) : 0 ≤ specCartSubtotal cart := by
  unfold specCartSubtotal
  refine List.sum_nonneg ?_
  intro x hx
  simp only [List.mem_map] at hx
  obtain ⟨it, hit, rfl⟩ := hx
  exact specLineSubtotal_nonneg it (h it hit)

/-- Claim C1: calculateCartTotals composes discounts multiplicatively — each
line item whose product has sale = true contributes price * (1 - 0.05) per
unit to the subtotal, other items contribute price per unit, and a present
user multiplies the aggregated subtotal once by (1 - 0.02); in particular a
single unit of a sale item priced 1000 with a logged-in user yields subtotal
1000 * 0.95 * 0.98 = 931, not 1000 * 0.93. -/
theorem C1_discounts_compose (cart : List CartLineItem) (u : Bool)
    (s p : Option String) :
    ((calculateCartTotals cart u s p).subtotal
        = (if u then 1 - USER_DISCOUNT else 1) * specCartSubtotal cart) ∧
    (∀ item : CartLineItem, ∀ pr : Product,
        findProduct item.productId = some pr → pr.sale = true →
        specLineSubtotal item = pr.price * (1 - SALE_DISCOUNT) * item.quantity) ∧
    (∀ item : CartLineItem, ∀ pr : Product,
        findProduct item.productId = some pr → pr.sale = false →
        specLineSubtotal item = pr.price * item.quantity) ∧
    (1000 : ℚ) * (1 - SALE_DISCOUNT) * (1 - USER_DISCOUNT) = 931 ∧
    (1000 : ℚ) * (1 - SALE_DISCOUNT) * (1 - USER_DISCOUNT) ≠ 1000 * 0.93 := by
  refine ⟨?_, ?_, ?_, ?_, ?_⟩
  · rw [calc_subtotal]
    cases u <;> simp [mul_comm]
  · intro item pr hfp hsale
    unfold specLineSubtotal
    rw [hfp]
    simp [hsale]
  · intro item pr hfp hsale
    unfold specLineSubtotal
    rw [hfp]
    simp [hsale]
  · norm_num [SALE_DISCOUNT, USER_DISCOUNT]
  · norm_num [SALE_DISCOUNT, USER_DISCOUNT]

/-- Witness for C1 at a concrete sale line item: one unit of the sale
product foot1 and one unit of the non-sale product acc2. -/
theorem C1_discounts_compose_witness :
    specLineSubtotal ⟨"foot1", 1, []⟩ =
      (products.get ⟨7, by norm_num [products]⟩).price * (1 - SALE_DISCOUNT) * 1 ∧
    specLineSubtotal ⟨"acc2", 1, []⟩ = (products.get ⟨6, by norm_num [products]⟩).price * 1 :=
  ⟨(C1_discounts_compose [] false none none).2.1 ⟨"foot1", 1, []⟩ _ rfl rfl,
   (C1_discounts_compose [] false none none).2.2.1 ⟨"acc2", 1, []⟩ _ rfl rfl⟩

/-- Claim C2: the shipping cost is 0 for method delivery when the discounted
subtotal strictly exceeds 7000 and 300 otherwise; for method mail it is 300
when the total weight is at most 3 and 500 otherwise; and 0 for any other
method, including an absent one. -/
theorem C2_shipping_tiers (cart : List CartLineItem) (u : Bool) (s p : Option String) :
    (calculateCartTotals cart u s p).shippingCost =
      if s = some "delivery" then
        if (calculateCartTotals cart u s p).subtotal > 7000 then 0 else 300
      else if s = some "mail" then
        if specCartWeight cart ≤ 3 then 300 else 500
      else 0 := by
  rw [calc_shipping]
  simp only [SHIPPING_FREE_THRESHOLD, SHIPPING_MEDIUM_COST, SHIPPING_LARGE_COST,
    SHIPPING_SMALL_LIMIT]

/-- Claim C3: the cash-on-delivery surcharge is subtotal * 0.05 exactly for
the combination mail + cod and 0 for every other combination, in particular
delivery + cod; and the total is subtotal + shippingCost + codSurcharge. -/
theorem C3_cod_surcharge (cart : List CartLineItem) (u : Bool) (s p : Option String) :
    ((calculateCartTotals cart u s p).codSurcharge =
        if s = some "mail" ∧ p = some "cod" then
          (calculateCartTotals cart u s p).subtotal * COD_SURCHARGE
        else 0) ∧
    ((calculateCartTotals cart u (some "delivery") (some "cod")).codSurcharge = 0) ∧
    ((calculateCartTotals cart u s p).total =
        (calculateCartTotals cart u s p).subtotal +
          (calculateCartTotals cart u s p).shippingCost +
          (calculateCartTotals cart u s p).codSurcharge) := by
  refine ⟨calc_cod cart u s p, ?_, calc_total cart u s p⟩
  rw [calc_cod]
  simp

/-- Claim C4 counterexample: the options mappings
[(colour, black), (size, M)] and [(size, M), (colour, black)] are
structurally equal as mappings (identical lookups, key order ignored), yet
addToCart does not merge the new quantity into the existing line item — it
appends a second line item, because the serialised key order differs. -/
theorem C4_counterexample :
    sameMapping [("colour", "black"), ("size", "M")]
        [("size", "M"), ("colour", "black")] = true ∧
    addToCart [⟨"m1", 1, [("colour", "black"), ("size", "M")]⟩] "m1" 2
        [("size", "M"), ("colour", "black")] =
      [⟨"m1", 1, [("colour", "black"), ("size", "M")]⟩,
       ⟨"m1", 2, [("size", "M"), ("colour", "black")]⟩] ∧
    addToCart [⟨"m1", 1, [("colour", "black"), ("size", "M")]⟩] "m1" 2
        [("size", "M"), ("colour", "black")] ≠
      [⟨"m1", 3, [("colour", "black"), ("size", "M")]⟩] := by
  refine ⟨by decide, by decide, by decide⟩

/-- Claim C4 amended: addToCart merges by equality of the serialised options
— the same key-value pairs in the same key order — incrementing the first
line item that matches on (productId, options) and appending a new line item
when none matches; with a fixed key order the concrete merge laws hold:
adding (m1, 1, colour black) then (m1, 2, colour black) yields one line item
with quantity 3, and a subsequent (m1, 1, colour red) yields a second,
distinct line item. -/
theorem C4_amended (cart : List CartLineItem) (pid : String) (q : ℚ)
    (opts : List (String × String)) :
    ((∀ it ∈ cart, ¬(it.productId = pid ∧ it.options = opts)) →
        addToCart cart pid q opts = cart ++ [⟨pid, q, opts⟩]) ∧
    (∀ pre item post, cart = pre ++ item :: post →
        (∀ it ∈ pre, ¬(it.productId = pid ∧ it.options = opts)) →
        item.productId = pid → item.options = opts →
        addToCart cart pid q opts =
          pre ++ { item with quantity := item.quantity + q } :: post) ∧
    (addToCart (addToCart [] "m1" 1 [("colour", "black")]) "m1" 2
        [("colour", "black")] = [⟨"m1", 3, [("colour", "black")]⟩]) ∧
    (addToCart [⟨"m1", 3, [("colour", "black")]⟩] "m1" 1 [("colour", "red")] =
        [⟨"m1", 3, [("colour", "black")]⟩, ⟨"m1", 1, [("colour", "red")]⟩]) := by
  refine ⟨addToCart_of_no_match cart pid q opts, ?_, ?_, by decide⟩
  · intro pre item post hc hpre hid hopts
    rw [hc]
    exact addToCart_first_match pre item post pid q opts hpre hid hopts
  · have h1 : addToCart (addToCart [] "m1" 1 [("colour", "black")]) "m1" 2
        [("colour", "black")] = [⟨"m1", (1 : ℚ) + 2, [("colour", "black")]⟩] := rfl
    rw [h1]
    norm_num

/-- Witness for C4 amended: on a one-item cart, an options mapping with a
different bound value appends, and a fully matching one increments. -/
theorem C4_amended_witness :
    addToCart [⟨"m1", 1, [("colour", "black")]⟩] "m1" 1 [("colour", "red")] =
      [⟨"m1", 1, [("colour", "black")]⟩] ++ [⟨"m1", 1, [("colour", "red")]⟩] ∧
    addToCart [⟨"m1", 1, [("colour", "black")]⟩] "m1" 2 [("colour", "black")] =
      [] ++ ⟨"m1", (1 : ℚ) + 2, [("colour", "black")]⟩ :: [] :=
  ⟨(C4_amended [⟨"m1", 1, [("colour", "black")]⟩] "m1" 1 [("colour", "red")]).1
      (by decide),
   (C4_amended [⟨"m1", 1, [("colour", "black")]⟩] "m1" 2 [("colour", "black")]).2.1
      [] ⟨"m1", 1, [("colour", "black")]⟩ [] rfl (by decide) rfl rfl⟩

/-- Claim C5: updateCartItem on an in-range index sets the line item's
quantity when the new quantity is positive, removes the line item entirely
when the new quantity is ≤ 0, and leaves the cart unchanged for every
out-of-range index. -/
theorem C5_updateCartItem (cart : List CartLineItem) (q : ℚ) :
    (∀ i : Nat, i < cart.length → q ≤ 0 →
        updateCartItem cart (i : Int) q = cart.eraseIdx i) ∧
    (∀ i : Nat, ∀ h : i < cart.length, 0 < q →
        updateCartItem cart (i : Int) q =
          cart.set i { cart.get ⟨i, h⟩ with quantity := q }) ∧
    (∀ index : Int, ¬(0 ≤ index ∧ index < (cart.length : Int)) →
        updateCartItem cart index q = cart) := by
  refine ⟨?_, ?_, ?_⟩
  · intro i hi hq
    have hrange : (0 : Int) ≤ (i : Int) ∧ (i : Int) < (cart.length : Int) := by
      constructor
      · exact Int.ofNat_nonneg i
      · exact_mod_cast hi
    simp only [updateCartItem, if_pos hrange, if_pos hq, Int.toNat_ofNat]
    exact eraseIdx_setQuantityAt cart i q
  · intro i hi hq
    have hrange : (0 : Int) ≤ (i : Int) ∧ (i : Int) < (cart.length : Int) := by
      constructor
      · exact Int.ofNat_nonneg i
      · exact_mod_cast hi
    simp only [updateCartItem, if_pos hrange, if_neg (not_le.mpr hq), Int.toNat_ofNat]
    exact setQuantityAt_eq_set cart i q hi
  · intro index hrange
    simp only [updateCartItem, if_neg hrange]

/-- Witness for C5 on a concrete two-item cart: quantity 5 updates, quantity
0 removes, index 7 is a no-op. -/
theorem C5_updateCartItem_witness :
    updateCartItem [⟨"m1", 1, []⟩, ⟨"c1", 2, []⟩] 0 0 = [⟨"c1", 2, []⟩] ∧
    updateCartItem [⟨"m1", 1, []⟩] 0 5 = [⟨"m1", 5, []⟩] ∧
    updateCartItem [⟨"m1", 1, []⟩] 7 5 = [⟨"m1", 1, []⟩] := by
  refine ⟨?_, ?_, ?_⟩
  · have h := (C5_updateCartItem [⟨"m1", 1, []⟩, ⟨"c1", 2, []⟩] 0).1 0
      (by norm_num) (by norm_num)
    simpa using h
  · have h := (C5_updateCartItem [⟨"m1", 1, []⟩] 5).2.1 0 (by norm_num) (by norm_num)
    simpa using h
  · have h := (C5_updateCartItem [⟨"m1", 1, []⟩] 5).2.2 7 (by norm_num)
    simpa using h

/-- Claim C6 counterexample: removeCartItem with the out-of-range index -1
does not leave the cart unchanged — ECMAScript splice counts a negative
index from the end, so the last (here only) line item is removed. -/
theorem C6_counterexample :
    removeCartItem [⟨"m1", 1, []⟩] (-1) = [] ∧
    ¬(0 ≤ (-1 : Int) ∧
        (-1 : Int) < (([⟨"m1", 1, []⟩] : List CartLineItem).length : Int)) ∧
    ([] : List CartLineItem) ≠ [⟨"m1", 1, []⟩] := by
  refine ⟨rfl, by decide, by decide⟩

/-- Claim C6 amended: removeCartItem removes exactly the line item at the
index when 0 ≤ index < length (leaving the others in order), is a silent
no-op when index ≥ length, and for a negative index follows the ECMAScript
splice semantics: it removes the item at position length + index, clamped to
the first item — so negative indices are not a no-op on a non-empty cart. -/
theorem C6_amended (cart : List CartLineItem) (index : Int) :
    (0 ≤ index → index < (cart.length : Int) →
        removeCartItem cart index = cart.eraseIdx index.toNat) ∧
    ((cart.length : Int) ≤ index → removeCartItem cart index = cart) ∧
    (index < 0 →
        removeCartItem cart index = cart.eraseIdx ((cart.length : Int) + index).toNat) := by
  refine ⟨?_, ?_, ?_⟩
  · intro h0 hlt
    rw [removeCartItem_eq_eraseIdx]
    congr 1
    simp only [spliceStart, if_neg (not_lt.mpr h0)]
    omega
  · intro hle
    rw [removeCartItem_eq_eraseIdx]
    apply List.eraseIdx_of_length_le
    have h0 : ¬ index < 0 := by omega
    simp only [spliceStart, if_neg h0]
    omega
  · intro hneg
    rw [removeCartItem_eq_eraseIdx]
    congr 1
    simp only [spliceStart, if_pos hneg]

/-- Witness for C6 amended on a concrete two-item cart: index 1 removes the
second item, index 5 is a no-op, index -2 removes the first item. -/
theorem C6_amended_witness :
    removeCartItem [⟨"m1", 1, []⟩, ⟨"c1", 2, []⟩] 1 =
      ([⟨"m1", 1, []⟩, ⟨"c1", 2, []⟩] : List CartLineItem).eraseIdx 1 ∧
    removeCartItem [⟨"m1", 1, []⟩, ⟨"c1", 2, []⟩] 5 = [⟨"m1", 1, []⟩, ⟨"c1", 2, []⟩] ∧
    removeCartItem [⟨"m1", 1, []⟩, ⟨"c1", 2, []⟩] (-2) =
      ([⟨"m1", 1, []⟩, ⟨"c1", 2, []⟩] : List CartLineItem).eraseIdx
        (((2 : Int) + (-2)).toNat) :=
  ⟨(C6_amended [⟨"m1", 1, []⟩, ⟨"c1", 2, []⟩] 1).1 (by decide) (by decide),
   (C6_amended [⟨"m1", 1, []⟩, ⟨"c1", 2, []⟩] 5).2.1 (by decide),
   (C6_amended [⟨"m1", 1, []⟩, ⟨"c1", 2, []⟩] (-2)).2.2 (by decide)⟩

/-- Claim C7: getCart returns the empty list for every persisted cart state
that is absent, invalid JSON, or valid JSON that is not a list, and returns
the stored list for every well-formed persisted list. An absent record
parses to Json.null and falls under the non-list case. -/
theorem C7_getCart_tolerant (parsed : Except Unit Json) :
    (∀ l, parsed = Except.ok (Json.arr l) → getCart parsed = l) ∧
    ((∀ l, parsed ≠ Except.ok (Json.arr l)) → getCart parsed = []) := by
  constructor
  · intro l h
    rw [h]
    rfl
  · intro h
    cases parsed with
    | error e => rfl
    | ok j =>
        cases j with
        | arr l => exact absurd rfl (h l)
        | null => rfl
        | bool b => rfl
        | num q => rfl
        | str s => rfl
        | obj o => rfl

/-- Witness for C7: a stored array is returned as is, a parse failure and a
stored non-array both yield the empty cart. -/
theorem C7_getCart_tolerant_witness :
    getCart (Except.ok (Json.arr [Json.null])) = [Json.null] ∧
    getCart (Except.error ()) = [] ∧
    getCart (Except.ok (Json.num 5)) = [] :=
  ⟨(C7_getCart_tolerant (Except.ok (Json.arr [Json.null]))).1 [Json.null] rfl,
   (C7_getCart_tolerant (Except.error ())).2 (fun l h => Except.noConfusion h),
   (C7_getCart_tolerant (Except.ok (Json.num 5))).2
     (fun l h => by cases h)⟩

/-- Claim C8, evaluated at the failing input: on a persisted subscriber
record that is not valid JSON, the JSON.parse call inside subscribeEmail is
not guarded by any try/catch, so the thrown SyntaxError propagates to the
caller (the error outcome below), while getCart and getCurrentUser recover
from the same class of corruption with a safe default. -/
theorem C8_subscribeEmail_raises :
    subscribeEmail (Except.error ()) "user@example.com" = Except.error () ∧
    getCart (Except.error ()) = [] ∧
    getCurrentUser (Except.error ()) = none :=
  ⟨rfl, rfl, rfl⟩

/-- Claim C9: subscribeEmail appends the email to the stored list exactly
when it is non-empty and not already a member under case-sensitive exact
string comparison, leaves the list unchanged otherwise, and is idempotent;
subscribing a fresh email leaves exactly one stored entry for it. -/
theorem C9_subscribe_idempotent (stored : Except Unit (List String)) (email : String) :
    (subscribeEmail (subscribeEmail stored email) email = subscribeEmail stored email) ∧
    (∀ l, stored = Except.ok l → email ≠ "" → email ∉ l →
        subscribeEmail stored email = Except.ok (l ++ [email]) ∧
        (l ++ [email]).count email = 1) ∧
    (∀ l, stored = Except.ok l → (email = "" ∨ email ∈ l) →
        subscribeEmail stored email = Except.ok l) := by
  refine ⟨?_, ?_, ?_⟩
  · cases stored with
    | error e => rfl
    | ok l =>
        by_cases hc : email ≠ "" ∧ email ∉ l
        · simp only [subscribeEmail, if_pos hc]
          have hmem : email ∈ l ++ [email] := by simp
          simp [hmem]
        · simp only [subscribeEmail, if_neg hc]
  · intro l hl hne hmem
    subst hl
    constructor
    · simp only [subscribeEmail, if_pos (And.intro hne hmem)]
    · rw [List.count_append]
      have h0 : l.count email = 0 := by
        simpa using List.count_eq_zero.mpr hmem
      simp [h0]
  · intro l hl hcase
    subst hl
    have hc : ¬(email ≠ "" ∧ email ∉ l) := by
      rcases hcase with h | h
      · intro hx
        exact hx.1 h
      · intro hx
        exact hx.2 h
    simp only [subscribeEmail, if_neg hc]

/-- Witness for C9 on a concrete store: a fresh email is appended once, and
a repeat subscription is the identity. -/
theorem C9_subscribe_idempotent_witness :
    subscribeEmail (Except.ok ["a@b.c"]) "d@e.f" = Except.ok (["a@b.c"] ++ ["d@e.f"]) ∧
    (["a@b.c"] ++ ["d@e.f"]).count "d@e.f" = 1 ∧
    subscribeEmail (Except.ok ["a@b.c"]) "a@b.c" = Except.ok ["a@b.c"] :=
  ⟨((C9_subscribe_idempotent (Except.ok ["a@b.c"]) "d@e.f").2.1 ["a@b.c"] rfl
      (by decide) (by decide)).1,
   ((C9_subscribe_idempotent (Except.ok ["a@b.c"]) "d@e.f").2.1 ["a@b.c"] rfl
      (by decide) (by decide)).2,
   (C9_subscribe_idempotent (Except.ok ["a@b.c"]) "a@b.c").2.2 ["a@b.c"] rfl
      (Or.inr (by decide))⟩

/-- Claim C10: for every cart whose line items have non-negative quantities,
all four components of the returned Totals are non-negative, for every
shipping method, payment method and user presence (the catalog's prices and
weights are all non-negative). -/
theorem C10_totals_nonneg (cart : List CartLineItem) (u : Bool) (s p : Option String)
    (h : ∀ it ∈ cart, 0 ≤ it.quantity) :
    0 ≤ (calculateCartTotals cart u s p).subtotal ∧
    0 ≤ (calculateCartTotals cart u s p).shippingCost ∧
    0 ≤ (calculateCartTotals cart u s p).codSurcharge ∧
    0 ≤ (calculateCartTotals cart u s p).total := by
  have hspec := specCartSubtotal_nonneg cart h
  have hsub : 0 ≤ (calculateCartTotals cart u s p).subtotal := by
    rw [calc_subtotal]
    cases u
    · simpa using hspec
    · simp only [if_pos rfl]
      exact mul_nonneg hspec (by norm_num [USER_DISCOUNT])
  have hship : 0 ≤ (calculateCartTotals cart u s p).shippingCost := by
    rw [calc_shipping]
    split_ifs <;>
      norm_num [SHIPPING_MEDIUM_COST, SHIPPING_LARGE_COST]
  have hcod : 0 ≤ (calculateCartTotals cart u s p).codSurcharge := by
    rw [calc_cod]
    split_ifs
    · exact mul_nonneg hsub (by norm_num [COD_SURCHARGE])
    · exact le_refl 0
  refine ⟨hsub, hship, hcod, ?_⟩
  rw [calc_total]
  exact add_nonneg (add_nonneg hsub hship) hcod

/-- Witness for C10 on a concrete cart of two units of m1 and one unit of
the sale item foot1, with a user, mail shipping and cash on delivery. -/
theorem C10_totals_nonneg_witness :
    0 ≤ (calculateCartTotals [⟨"m1", 2, []⟩, ⟨"foot1", 1, []⟩] true
        (some "mail") (some "cod")).subtotal ∧
    0 ≤ (calculateCartTotals [⟨"m1", 2, []⟩, ⟨"foot1", 1, []⟩] true
        (some "mail") (some "cod")).shippingCost ∧
    0 ≤ (calculateCartTotals [⟨"m1", 2, []⟩, ⟨"foot1", 1, []⟩] true
        (some "mail") (some "cod")).codSurcharge ∧
    0 ≤ (calculateCartTotals [⟨"m1", 2, []⟩, ⟨"foot1", 1, []⟩] true
        (some "mail") (some "cod")).total :=
  C10_totals_nonneg [⟨"m1", 2, []⟩, ⟨"foot1", 1, []⟩] true (some "mail") (some "cod")
    (by
      intro it hit
      simp only [List.mem_cons, List.not_mem_nil, or_false] at hit
      rcases hit with rfl | rfl <;> norm_num)

end BikeShop
